import Mathlib

/-!
Shallow embedding of the cmed automated-trading repository
(src/App.tsx, src/services/aiService.ts, src/unnamed/part_000 = types.ts,
src/unnamed/part_001 = mexcService.ts), together with theorems settling
the frozen claims about it.

Numeric wire/JS values are modelled as rationals; external platform
primitives (HMAC-SHA256 via crypto.subtle, URLSearchParams
canonicalization, encodeURIComponent, Date.now, Math.random, fetch) are
modelled as explicit function or oracle parameters so every definition
stays executable.
-/

namespace Cmed

/-- types.ts: PositionSide enum (LONG / SHORT / NONE). -/
inductive PositionSide
  | LONG
  | SHORT
  | NONE
deriving DecidableEq, Repr

/-- types.ts: the four-valued action field of TradeAction. -/
inductive TradeActionKind
  | LONG
  | SHORT
  | CLOSE
  | WAIT
deriving DecidableEq, Repr

/-- types.ts: TradeAction record returned by the Decision Provider. -/
structure TradeAction where
  action : TradeActionKind
  leverage : ℚ
  reason : String
  confidence : ℚ
deriving DecidableEq, Repr

/-- types.ts: AppSettings. `aiProvider` is kept as a plain string because the
runtime value is a string and aiService.ts defends against unsupported
values; optional string fields default to the empty string as in the app. -/
structure AppSettings where
  aiProvider : String
  geminiApiKey : String
  openaiApiKey : String
  deepseekApiKey : String
  mexcApiKey : String
  mexcSecretKey : String
  tradingSymbol : String
  defaultLeverage : ℚ
  riskPercent : ℚ
  isAutoTrading : Bool
  intervalMinutes : ℚ
  isLiveMode : Bool
  corsProxyUrl : String
deriving DecidableEq, Repr

/-- App.tsx refreshMarket: one (time, price) sample of the rolling history. -/
structure Sample where
  time : String
  price : ℚ
deriving DecidableEq, Repr

/-- types.ts: MarketData snapshot. -/
structure MarketData where
  symbol : String
  price : ℚ
  change24h : ℚ
  volume : ℚ
  timestamp : Nat
  history : List Sample
deriving DecidableEq, Repr

/-- types.ts: Position. -/
structure Position where
  id : String
  symbol : String
  side : PositionSide
  entryPrice : ℚ
  currentPrice : ℚ
  leverage : ℚ
  pnl : ℚ
  pnlPercent : ℚ
  margin : ℚ
  unrealizedPnl : Option ℚ
  liquidationPrice : Option ℚ
deriving DecidableEq, Repr

/-- types.ts: MexcBalance. -/
structure MexcBalance where
  asset : String
  available : ℚ
  frozen : ℚ
  total : ℚ
deriving DecidableEq, Repr

/-- types.ts: MexcOrder. -/
structure MexcOrder where
  orderId : String
  symbol : String
  price : ℚ
  quantity : ℚ
  side : String
  type : String
  status : String
  createTime : Nat
deriving DecidableEq, Repr

/-- types.ts: MexcTrade. -/
structure MexcTrade where
  id : String
  symbol : String
  price : ℚ
  quantity : ℚ
  side : String
  pnl : ℚ
  time : Nat
deriving DecidableEq, Repr

/-- types.ts: MexcTransfer. -/
structure MexcTransfer where
  id : String
  asset : String
  amount : ℚ
  type : String
  status : String
  timestamp : Nat
deriving DecidableEq, Repr

/-! ## JavaScript list helper

`Array.prototype.slice(-n)` keeps the last `n` elements. -/

/-- JS `slice(-n)`: the last `n` elements of a list (the whole list when it
is shorter than `n`). -/
def jsSliceLast (n : Nat) (l : List α) : List α :=
  l.drop (l.length - n)

theorem jsSliceLast_length_le (n : Nat) (l : List α) :
    (jsSliceLast n l).length ≤ n := by
  simp only [jsSliceLast, List.length_drop]
  omega

/-! ## Exchange Gateway: mexcService.ts privateRequest, pre-dispatch phase

mexcService.ts lines 32-60: credential check, timestamp, canonical query
string, HMAC signature, signature appended to the same string, optional
proxy rewriting, dispatch with the API key header.  The canonicalizer
(URLSearchParams), the HMAC (crypto.subtle) and encodeURIComponent are
external platform primitives, passed in as function parameters. -/

/-- The fully built private request as it is handed to fetch:
`signedQuery` is the exact string passed to sign, `targetUrl` embeds it,
`requestUrl` is `targetUrl` after proxy rewriting. -/
structure RequestPlan where
  signedQuery : String
  signature : String
  targetUrl : String
  requestUrl : String
  method : String
  apiKeyHeader : String
deriving DecidableEq, Repr

/-- Observable effects of privateRequest up to (and including) dispatch,
in execution order: the Date.now() read, the call to sign, the fetch. -/
inductive GatewayEvent
  | readClock
  | signCall (input : String) (secret : String)
  | dispatch (url : String) (method : String) (apiKeyHeader : String)
deriving DecidableEq, Repr

/-- A concrete canonicalizer with the shape URLSearchParams produces
(`k=v` pairs joined by `&`, insertion order preserved); used to
instantiate witnesses.  Percent-encoding of values is not modelled: no
claim depends on it. -/
def toQueryString (l : List (String × String)) : String :=
  String.intercalate "&" (l.map (fun p => p.1 ++ "=" ++ p.2))

/-- mexcService.ts lines 42-51: optional CORS-proxy rewriting of the target
URL.  A proxy containing "?url=" gets the encoded target appended; any
other nonempty proxy gets the raw target appended path-style (with a "/"
separator unless the proxy already ends in one).  `trim` is the platform
string-trim (JS `String.prototype.trim`), `encode` is encodeURIComponent. -/
def applyProxy (trim encode : String → String) (corsProxyUrl : String)
    (targetUrl : String) : String :=
  let proxy := trim corsProxyUrl
  if proxy = "" then targetUrl
  else if (proxy.splitOn "?url=").length > 1 then
    proxy ++ encode targetUrl
  else
    proxy ++ (if proxy.endsWith "/" then "" else "/") ++ targetUrl

/-- mexcService.ts lines 32-60, phase before the response arrives.
Returns the Except outcome (the credential rejection is the only throw in
this phase) together with the trace of effects: on rejection the trace is
empty — no clock read, no signing, no dispatch. -/
def privateRequestBuild (canon : List (String × String) → String)
    (hmac : String → String → String) (trim encode : String → String)
    (now : Nat) (baseUrl endpoint method : String) (settings : AppSettings)
    (params : List (String × String)) :
    Except String RequestPlan × List GatewayEvent :=
  if settings.mexcApiKey = "" ∨ settings.mexcSecretKey = "" then
    (Except.error "MEXC API Keys are missing.", [])
  else
    let queryParams := canon (params ++ [("timestamp", toString now)])
    let signature := hmac queryParams settings.mexcSecretKey
    let targetUrl :=
      baseUrl ++ endpoint ++ "?" ++ queryParams ++ "&signature=" ++ signature
    let requestUrl := applyProxy trim encode settings.corsProxyUrl targetUrl
    (Except.ok
      { signedQuery := queryParams
        signature := signature
        targetUrl := targetUrl
        requestUrl := requestUrl
        method := method
        apiKeyHeader := settings.mexcApiKey },
     [GatewayEvent.readClock,
      GatewayEvent.signCall queryParams settings.mexcSecretKey,
      GatewayEvent.dispatch requestUrl method settings.mexcApiKey])

/-! ## Endpoint projections (mexcService.ts)

Each endpoint's post-dispatch behaviour is modelled by feeding the
normalized fetch outcome in as an `Except` oracle: `.error e` is a throw
anywhere inside privateRequest (missing credentials, transport error,
exchange rejection, malformed payload), `.ok` the parsed JSON payload. -/

/-- mexcService.ts getOpenPositions: one element of `result.data` as it
comes off the wire (numeric fields already carry their JS number value). -/
structure RawPosition where
  positionId : Option String
  symbol : String
  positionType : Int
  holdAvgPrice : ℚ
  fairPrice : ℚ
  leverage : ℚ
  unrealizedPnl : ℚ
  margin : ℚ
  liquidatePrice : ℚ
deriving DecidableEq, Repr

/-- mexcService.ts lines 128-139: projection of one raw position into the
core Position record.  `randId` stands for the `Math.random().toString()`
fallback identifier; the P&L percentage is `unrealizedPnl / margin * 100`
with no guard on `margin`. -/
def mapOpenPosition (randId : String) (p : RawPosition) : Position :=
  { id := p.positionId.getD randId
    symbol := p.symbol
    side := if p.positionType = 1 then PositionSide.LONG else PositionSide.SHORT
    entryPrice := p.holdAvgPrice
    currentPrice := p.fairPrice
    leverage := p.leverage
    pnl := p.unrealizedPnl
    pnlPercent := p.unrealizedPnl / p.margin * 100
    margin := p.margin
    unrealizedPnl := none
    liquidationPrice := some p.liquidatePrice }

/-- mexcService.ts lines 125-140: getOpenPositions.  A privateRequest
throw propagates; a payload with no `data` array yields the empty list;
otherwise each entry is projected by `mapOpenPosition` (the `rand` oracle
supplies the per-entry fallback id). -/
def getOpenPositions (resp : Except String (Option (List RawPosition)))
    (rand : Nat → String) : Except String (List Position) :=
  match resp with
  | Except.error e => Except.error e
  | Except.ok none => Except.ok []
  | Except.ok (some l) =>
      Except.ok (l.enum.map (fun ip => mapOpenPosition (rand ip.1) ip.2))

/-- mexcService.ts getTransferHistory: one element of the deposit-history
payload as it comes off the wire. -/
structure RawTransfer where
  id : Option String
  coin : String
  amount : ℚ
  status : Int
  insertTime : Nat
deriving DecidableEq, Repr

/-- mexcService.ts lines 171-186: getTransferHistory.  The whole body is
wrapped in try/catch returning `[]`, so a privateRequest throw — missing
credentials included — is absorbed; a non-array payload also yields `[]`;
otherwise each deposit is projected (type DEPOSIT, status SUCCESS exactly
when the wire status is 1). -/
def getTransferHistory (resp : Except String (Option (List RawTransfer)))
    (rand : Nat → String) : List MexcTransfer :=
  match resp with
  | Except.error _ => []
  | Except.ok none => []
  | Except.ok (some l) =>
      l.enum.map (fun it =>
        { id := it.2.id.getD (rand it.1)
          asset := it.2.coin
          amount := it.2.amount
          type := "DEPOSIT"
          status := if it.2.status = (1 : Int) then "SUCCESS" else "PENDING"
          timestamp := it.2.insertTime })

/-! ## executeTrade (mexcService.ts lines 188-214) -/

/-- The non-WAIT actions executeTrade accepts. -/
inductive TradeCmd
  | LONG
  | SHORT
  | CLOSE
deriving DecidableEq, Repr

/-- mexcService.ts lines 204-211: the order-creation request body.
`side` is the exchange's numeric code (1 = open long, 2 = open short,
3 = close), `type` 5 = market, `openType` 1 = isolated. -/
structure OrderParams where
  symbol : String
  vol : ℚ
  side : Nat
  type : Nat
  openType : Nat
  leverage : ℚ
deriving DecidableEq, Repr

/-- mexcService.ts lines 203-211: the order parameters built in live mode.
Volume is fixed at 1 and leverage is taken from the configuration's
default leverage (the decision's requested leverage is never passed in). -/
def mkOrderParams (action : TradeCmd) (settings : AppSettings) : OrderParams :=
  { symbol := settings.tradingSymbol
    vol := 1
    side := match action with
      | TradeCmd.LONG => 1
      | TradeCmd.SHORT => 2
      | TradeCmd.CLOSE => 3
    type := 5
    openType := 1
    leverage := settings.defaultLeverage }

/-- Outcome of executeTrade: in simulation a fabricated position and no
request; in live mode either the order-creation request handed to
privateRequest for dispatch, or privateRequest's credential rejection
thrown before any dispatch. -/
inductive ExecuteOutcome
  | simulated (p : Position)
  | submitted (p : OrderParams)
  | rejected (msg : String)
deriving DecidableEq, Repr

/-- mexcService.ts lines 188-214: executeTrade.  Simulation mode
(`isLiveMode = false`) fabricates a filled position locally: id prefixed
"sim-" from the `randId` oracle, side LONG exactly for a LONG action and
SHORT otherwise, entry = current = the passed market price, leverage from
the configuration, pnl = 0, margin = 100.  Live mode builds the order
request and routes it through privateRequest. -/
def executeTrade (action : TradeCmd) (settings : AppSettings)
    (marketPrice : ℚ) (randId : String) : ExecuteOutcome :=
  if settings.isLiveMode = false then
    ExecuteOutcome.simulated
      { id := "sim-" ++ randId
        symbol := settings.tradingSymbol
        side := if action = TradeCmd.LONG then PositionSide.LONG
                else PositionSide.SHORT
        entryPrice := marketPrice
        currentPrice := marketPrice
        leverage := settings.defaultLeverage
        pnl := 0
        pnlPercent := 0
        margin := 100
        unrealizedPnl := none
        liquidationPrice := none }
  else if settings.mexcApiKey = "" ∨ settings.mexcSecretKey = "" then
    ExecuteOutcome.rejected "MEXC API Keys are missing."
  else
    ExecuteOutcome.submitted (mkOrderParams action settings)

/-- The order-creation requests an executeTrade outcome puts on the wire:
exactly the submitted request in live mode, none otherwise. -/
def orderCallsOf : ExecuteOutcome → List OrderParams
  | ExecuteOutcome.submitted p => [p]
  | _ => []

/-! ## Decision Provider (aiService.ts) -/

/-- aiService.ts lines 16-36: the prompt handed to every backend.  Braces
of the embedded JSON template are written with character escapes; numeric
rendering is the platform's number-to-string conversion. -/
def buildPrompt (data : MarketData) (currentPositionSide : String) : String :=
  "Analyze the current market data for " ++ data.symbol ++
  " and decide on a leverage trading action. Current Price: $" ++
  toString data.price ++ " 24h Change: " ++ toString data.change24h ++
  "% 24h Volume: " ++ toString data.volume ++
  " Recent Price History: " ++
  String.intercalate ","
    ((jsSliceLast 10 data.history).map (fun s =>
      "\x7b\"time\":\"" ++ s.time ++ "\",\"price\":" ++ toString s.price ++ "\x7d")) ++
  " Current Active Position: " ++ currentPositionSide ++
  " Respond ONLY in JSON format."

/-- The three interchangeable decision backends, each an oracle taking the
prompt and either yielding the coerced TradeAction or throwing (HTTP
error, malformed JSON, application error — any throw inside the branch). -/
structure Backends where
  gemini : String → Except String TradeAction
  openai : String → Except String TradeAction
  deepseek : String → Except String TradeAction

/-- aiService.ts lines 38-108: the body of the try block of analyze.
Provider dispatch and the per-provider missing-key throws happen here;
`envKey` is the `process.env.API_KEY` fallback for the gemini key (empty
when unset). -/
def analyzeTryBody (settings : AppSettings) (envKey : String) (b : Backends)
    (data : MarketData) (currentPositionSide : String) :
    Except String TradeAction :=
  let prompt := buildPrompt data currentPositionSide
  if settings.aiProvider = "gemini" then
    let apiKey := if settings.geminiApiKey ≠ "" then settings.geminiApiKey
                  else envKey
    if apiKey = "" then
      Except.error "Gemini API Key missing. Please provide it in settings."
    else b.gemini prompt
  else if settings.aiProvider = "openai" then
    if settings.openaiApiKey = "" then Except.error "OpenAI API Key missing"
    else b.openai prompt
  else if settings.aiProvider = "deepseek" then
    if settings.deepseekApiKey = "" then Except.error "DeepSeek API Key missing"
    else b.deepseek prompt
  else Except.error "Unsupported AI Provider"

/-- aiService.ts lines 15-118: analyze.  Total by construction — the
catch-all branch (lines 109-117) turns every throw into the neutral WAIT
decision carrying the failure detail. -/
def analyze (settings : AppSettings) (envKey : String) (b : Backends)
    (data : MarketData) (currentPositionSide : String) : TradeAction :=
  match analyzeTryBody settings envKey b data currentPositionSide with
  | Except.ok a => a
  | Except.error msg =>
      { action := TradeActionKind.WAIT
        leverage := 1
        reason := "Analysis failed: " ++ msg
        confidence := 0 }

/-! ## Market Poller (App.tsx refreshMarket, lines 139-153) -/

/-- App.tsx line 146: append the fresh (time, price) sample and keep the
last 50 entries (`[...history, sample].slice(-50)`). -/
def pushSample (h : List Sample) (s : Sample) : List Sample :=
  jsSliceLast 50 (h ++ [s])

/-- A run of market-poller ticks: `some s` is a successful getTicker tick
contributing sample `s`; `none` is a failed fetch, which the catch block
(App.tsx lines 150-152) absorbs leaving the previous history in place. -/
def marketHistory : List Sample → List (Option Sample) → List Sample
  | h, [] => h
  | h, some s :: ts => marketHistory (pushSample h s) ts
  | h, none :: ts => marketHistory h ts

/-! ## Account Synchronizer (App.tsx refreshAccountData, lines 155-180) -/

/-- App.tsx: the MEXC connectivity status values. -/
inductive SyncStatus
  | CONNECTED
  | DISCONNECTED
  | ERROR
deriving DecidableEq, Repr

/-- The combined snapshot published on a fully successful sync. -/
structure AccountSnapshot where
  spot : List MexcBalance
  futures : List MexcBalance
  positions : List Position
  orders : List MexcOrder
  trades : List MexcTrade
  transfers : List MexcTransfer
deriving DecidableEq, Repr

/-- App.tsx lines 155-180: refreshAccountData.  Skips (DISCONNECTED) when
credentials are absent or the session is not logged in; otherwise runs the
six sub-calls (spot balance, futures balance, open positions, open orders,
trade history, transfer history) via Promise.all.  The first five are fed
in as their normalized outcomes; positions and transfers go through the
endpoint projections above.  Any rejection among the five throwing
sub-calls makes the whole sync ERROR; transfer history cannot reject. -/
def refreshAccountData (settings : AppSettings) (isLoggedIn : Bool)
    (spot futures : Except String (List MexcBalance))
    (posResp : Except String (Option (List RawPosition)))
    (orders : Except String (List MexcOrder))
    (trades : Except String (List MexcTrade))
    (transferResp : Except String (Option (List RawTransfer)))
    (rand : Nat → String) : SyncStatus × Option AccountSnapshot :=
  if settings.mexcApiKey = "" ∨ settings.mexcSecretKey = "" ∨ isLoggedIn = false
  then (SyncStatus.DISCONNECTED, none)
  else
    match spot, futures, getOpenPositions posResp rand, orders, trades with
    | Except.ok s, Except.ok f, Except.ok p, Except.ok o, Except.ok t =>
        (SyncStatus.CONNECTED,
         some { spot := s, futures := f, positions := p, orders := o,
                trades := t,
                transfers := getTransferHistory transferResp rand })
    | _, _, _, _, _ => (SyncStatus.ERROR, none)

/-! ## Trading Orchestrator (App.tsx runTradingCycle, lines 182-201) -/

/-- App.tsx line 186: the current side handed to the provider — the first
open position's side, or NONE when the position list is empty. -/
def activeSide (positions : List Position) : PositionSide :=
  match positions with
  | [] => PositionSide.NONE
  | p :: _ => p.side

/-- Rendering of the side enum as the string interpolated into the
prompt (the TS enum values are their own names). -/
def sideName : PositionSide → String
  | PositionSide.LONG => "LONG"
  | PositionSide.SHORT => "SHORT"
  | PositionSide.NONE => "NONE"

/-- The executeTrade command corresponding to a non-WAIT decision action. -/
def actionCmd : TradeActionKind → Option TradeCmd
  | TradeActionKind.LONG => some TradeCmd.LONG
  | TradeActionKind.SHORT => some TradeCmd.SHORT
  | TradeActionKind.CLOSE => some TradeCmd.CLOSE
  | TradeActionKind.WAIT => none

/-- App.tsx lines 182-201: the order-creation requests one trading cycle
puts on the wire.  The cycle bails out when auto-trading is off or no
market snapshot exists; it asks the provider for a decision; only a
non-WAIT decision in live mode reaches executeTrade (simulation cycles
make no call at all); the out-of-band account refresh issues no
order-creation request. -/
def runTradingCycleOrderCalls (settings : AppSettings) (envKey : String)
    (b : Backends) (market : Option MarketData) (positions : List Position)
    (randId : String) : List OrderParams :=
  match market with
  | none => []
  | some m =>
    if settings.isAutoTrading = false then []
    else
      match actionCmd
          (analyze settings envKey b m (sideName (activeSide positions))).action with
      | none => []
      | some c =>
          if settings.isLiveMode then
            orderCallsOf (executeTrade c settings m.price randId)
          else []

/-! ## Timer semantics of the trading loop (App.tsx lines 218-225)

The trading driver is `window.setInterval(runTradingCycle, T)`: the timer
fires every `T` milliseconds whether or not the previous invocation has
resolved.  runTradingCycle's entry guard (line 183) checks only the
auto-trading flag and snapshot presence — it never consults the
`isAnalyzing` flag or any other record of an in-flight cycle — so under a
passing guard, cycle `n` starts at time `n*T`.  A cycle whose decision is
non-WAIT in live mode then has an EXECUTING phase spanning the await of
its executeTrade network call. -/

/-- App.tsx line 183: the entry guard of runTradingCycle.  Note the
absence of any in-flight/re-entrancy check. -/
def cycleEntryGuard (isAutoTrading : Bool) (marketPresent : Bool) : Bool :=
  isAutoTrading && marketPresent

/-- Durations (ms) of one cycle's two awaited phases: the provider call
and the live order submission. -/
structure CycleDurations where
  analyzeDur : Nat
  execDur : Nat
deriving Repr

/-- setInterval semantics: under a passing `cycleEntryGuard`, cycle `n`
of the trading loop starts when the timer fires at `n * T`. -/
def cycleStart (T n : Nat) : Nat := n * T

/-- Start of cycle `n`'s EXECUTING phase: its analysis resolves
`analyzeDur` after the cycle starts, then executeTrade is awaited. -/
def execPhaseStart (T : Nat) (d : Nat → CycleDurations) (n : Nat) : Nat :=
  cycleStart T n + (d n).analyzeDur

/-- End of cycle `n`'s EXECUTING phase. -/
def execPhaseEnd (T : Nat) (d : Nat → CycleDurations) (n : Nat) : Nat :=
  execPhaseStart T d n + (d n).execDur

/-- Cycle `n` of a live, non-WAIT trading loop is in its EXECUTING phase
at instant `t`. -/
def executingAt (T : Nat) (d : Nat → CycleDurations) (n t : Nat) : Bool :=
  decide (execPhaseStart T d n ≤ t) && decide (t < execPhaseEnd T d n)

/-! ## Concrete instantiation values used by witnesses and counterexamples -/

/-- A live-mode configuration with both exchange credentials present,
default leverage 10, auto-trading on, gemini provider with a key. -/
def liveSettings : AppSettings :=
  { aiProvider := "gemini"
    geminiApiKey := "g-key"
    openaiApiKey := ""
    deepseekApiKey := ""
    mexcApiKey := "AK"
    mexcSecretKey := "SK"
    tradingSymbol := "BTCUSDT"
    defaultLeverage := 10
    riskPercent := 2
    isAutoTrading := true
    intervalMinutes := 1
    isLiveMode := true
    corsProxyUrl := "" }

/-- The same configuration in simulation mode. -/
def simSettings : AppSettings :=
  { liveSettings with isLiveMode := false }

/-- The live configuration with both credentials erased. -/
def noKeySettings : AppSettings :=
  { liveSettings with mexcApiKey := "", mexcSecretKey := "" }

/-- The live configuration with an unsupported provider string. -/
def badProviderSettings : AppSettings :=
  { liveSettings with aiProvider := "llama" }

/-- The market snapshot of the spec's worked example. -/
def snapshot50000 : MarketData :=
  { symbol := "BTCUSDT", price := 50000, change24h := 2.1, volume := 1000
    timestamp := 0, history := [] }

/-- Backends whose gemini branch returns the spec example's decision
(LONG, requested leverage 5, confidence 80). -/
def longBackends : Backends :=
  { gemini := fun _ => Except.ok
      { action := TradeActionKind.LONG, leverage := 5
        reason := "bullish", confidence := 80 }
    openai := fun _ => Except.error "unreachable"
    deepseek := fun _ => Except.error "unreachable" }

/-- A stand-in for the platform HMAC, used only to instantiate witnesses
(the theorems hold for every hmac function). -/
def hmacDemo (s k : String) : String := s ++ "#" ++ k

/-! ## C7 -/

/-- C7: for every private request that reaches dispatch, the query string
over which the signature was computed is byte-identical to the query
string embedded in the transmitted target URL — same parameters in the
same order, with only the signature parameter appended after signing —
and the sign call received exactly that string. -/
theorem c7_signed_query_equals_transmitted
    (canon : List (String × String) → String) (hmac : String → String → String)
    (trim encode : String → String) (now : Nat)
    (baseUrl endpoint method : String)
    (settings : AppSettings) (params : List (String × String))
    (plan : RequestPlan) (events : List GatewayEvent)
    (h : privateRequestBuild canon hmac trim encode now baseUrl endpoint
          method settings params = (Except.ok plan, events)) :
    plan.signedQuery = canon (params ++ [("timestamp", toString now)]) ∧
    plan.signature = hmac plan.signedQuery settings.mexcSecretKey ∧
    plan.targetUrl = baseUrl ++ endpoint ++ "?" ++ plan.signedQuery ++
        "&signature=" ++ plan.signature ∧
    GatewayEvent.signCall plan.signedQuery settings.mexcSecretKey ∈ events := by
  unfold privateRequestBuild at h
  split at h
  · exact absurd h (by simp)
  · simp only [Prod.mk.injEq, Except.ok.injEq] at h
    obtain ⟨hplan, hev⟩ := h
    subst hplan
    subst hev
    refine ⟨rfl, rfl, rfl, ?_⟩
    simp

/-- C7 witness: the theorem instantiated at a concrete request. -/
theorem c7_witness :
    (privateRequestBuild toQueryString hmacDemo id id 7 "b" "/e" "GET"
        liveSettings [("symbol", "BTCUSDT")] =
      (Except.ok
        { signedQuery := "symbol=BTCUSDT&timestamp=7"
          signature := "symbol=BTCUSDT&timestamp=7#SK"
          targetUrl := "b/e?symbol=BTCUSDT&timestamp=7&signature=symbol=BTCUSDT&timestamp=7#SK"
          requestUrl := "b/e?symbol=BTCUSDT&timestamp=7&signature=symbol=BTCUSDT&timestamp=7#SK"
          method := "GET"
          apiKeyHeader := "AK" },
       [GatewayEvent.readClock,
        GatewayEvent.signCall "symbol=BTCUSDT&timestamp=7" "SK",
        GatewayEvent.dispatch
          "b/e?symbol=BTCUSDT&timestamp=7&signature=symbol=BTCUSDT&timestamp=7#SK"
          "GET" "AK"])) ∧
    "symbol=BTCUSDT&timestamp=7" =
      toQueryString ([("symbol", "BTCUSDT")] ++ [("timestamp", toString 7)]) := by
  refine ⟨?_, ?_⟩
  · rfl
  · exact (c7_signed_query_equals_transmitted toQueryString hmacDemo id id 7
      "b" "/e" "GET" liveSettings [("symbol", "BTCUSDT")] _ _ (by rfl)).1

/-! ## C8 -/

/-- C8: privateRequest raises its credential rejection exactly when the
API key or the secret is absent; in that case no effect has happened (no
clock read, no signing, no dispatch — the event trace is empty); when
both credentials are present the rejection branch is unreachable and the
request is built and dispatched. -/
theorem c8_credential_rejection
    (canon : List (String × String) → String) (hmac : String → String → String)
    (trim encode : String → String) (now : Nat)
    (baseUrl endpoint method : String)
    (settings : AppSettings) (params : List (String × String)) :
    ((privateRequestBuild canon hmac trim encode now baseUrl endpoint method
        settings params).1 = Except.error "MEXC API Keys are missing." ↔
      (settings.mexcApiKey = "" ∨ settings.mexcSecretKey = "")) ∧
    ((settings.mexcApiKey = "" ∨ settings.mexcSecretKey = "") →
      (privateRequestBuild canon hmac trim encode now baseUrl endpoint method
        settings params).2 = []) ∧
    ((settings.mexcApiKey ≠ "" ∧ settings.mexcSecretKey ≠ "") →
      ∃ plan, (privateRequestBuild canon hmac trim encode now baseUrl endpoint
        method settings params).1 = Except.ok plan) := by
  unfold privateRequestBuild
  by_cases hmiss : settings.mexcApiKey = "" ∨ settings.mexcSecretKey = ""
  · rw [if_pos hmiss]
    exact ⟨⟨fun _ => hmiss, fun _ => rfl⟩, fun _ => rfl,
      fun hp => absurd hmiss (by tauto)⟩
  · rw [if_neg hmiss]
    refine ⟨⟨fun h => absurd h (by simp), fun h => absurd h hmiss⟩,
      fun h => absurd h hmiss, fun _ => ⟨_, rfl⟩⟩

/-- C8 witness: with the credentials erased the call is rejected with an
empty effect trace; with them present it reaches dispatch. -/
theorem c8_witness :
    (privateRequestBuild toQueryString hmacDemo id id 7 "b" "/e" "GET"
        noKeySettings []).1 = Except.error "MEXC API Keys are missing." ∧
    (privateRequestBuild toQueryString hmacDemo id id 7 "b" "/e" "GET"
        noKeySettings []).2 = [] ∧
    (∃ plan, (privateRequestBuild toQueryString hmacDemo id id 7 "b" "/e" "GET"
        liveSettings []).1 = Except.ok plan) := by
  refine ⟨?_, ?_, ?_⟩
  · exact (c8_credential_rejection toQueryString hmacDemo id id 7 "b" "/e" "GET"
      noKeySettings []).1.mpr (Or.inl rfl)
  · exact (c8_credential_rejection toQueryString hmacDemo id id 7 "b" "/e" "GET"
      noKeySettings []).2.1 (Or.inl rfl)
  · exact (c8_credential_rejection toQueryString hmacDemo id id 7 "b" "/e" "GET"
      liveSettings []).2.2 (by refine ⟨?_, ?_⟩ <;> decide)

/-! ## C3 -/

/-- C3: analyze is a total function (its codomain is TradeAction, not an
exception type — the catch-all normalizes every throw), and whenever any
backend step throws (missing API key, HTTP error, malformed JSON,
unsupported provider — every throw surfaces as an error of the try body)
the result is exactly the WAIT decision with leverage 1, confidence 0 and
the failure detail in the reason. -/
theorem c3_analyze_failure_normalized (settings : AppSettings)
    (envKey : String) (b : Backends) (data : MarketData)
    (currentPositionSide : String) (msg : String)
    (h : analyzeTryBody settings envKey b data currentPositionSide =
        Except.error msg) :
    analyze settings envKey b data currentPositionSide =
      { action := TradeActionKind.WAIT
        leverage := 1
        reason := "Analysis failed: " ++ msg
        confidence := 0 } := by
  unfold analyze
  rw [h]

/-- C3 witness: an unsupported provider makes the try body throw and
analyze return the normalized WAIT decision. -/
theorem c3_witness :
    analyzeTryBody badProviderSettings "" longBackends snapshot50000 "NONE" =
      Except.error "Unsupported AI Provider" ∧
    analyze badProviderSettings "" longBackends snapshot50000 "NONE" =
      { action := TradeActionKind.WAIT
        leverage := 1
        reason := "Analysis failed: Unsupported AI Provider"
        confidence := 0 } :=
  ⟨rfl, c3_analyze_failure_normalized badProviderSettings "" longBackends
    snapshot50000 "NONE" "Unsupported AI Provider" rfl⟩

/-! ## C4 -/

/-- C4: for every action, every configuration with isLiveMode = false and
every market price, executeTrade performs no network call (no order
request reaches the wire) and returns a fabricated position whose entry
and current price equal the passed market price, with the configuration's
default leverage and pnl = 0. -/
theorem c4_simulation_no_network (action : TradeCmd) (settings : AppSettings)
    (marketPrice : ℚ) (randId : String) (h : settings.isLiveMode = false) :
    orderCallsOf (executeTrade action settings marketPrice randId) = [] ∧
    ∃ p, executeTrade action settings marketPrice randId =
        ExecuteOutcome.simulated p ∧
      p.entryPrice = marketPrice ∧ p.currentPrice = marketPrice ∧
      p.leverage = settings.defaultLeverage ∧ p.pnl = 0 := by
  unfold executeTrade
  rw [h]
  simp only [if_pos rfl]
  exact ⟨rfl, _, rfl, rfl, rfl, rfl, rfl⟩

/-- C4 witness: the theorem instantiated at the spec example's simulation
trade (LONG at price 50000). -/
theorem c4_witness :
    simSettings.isLiveMode = false ∧
    (orderCallsOf (executeTrade TradeCmd.LONG simSettings 50000 "r1") = [] ∧
     ∃ p, executeTrade TradeCmd.LONG simSettings 50000 "r1" =
         ExecuteOutcome.simulated p ∧
       p.entryPrice = 50000 ∧ p.currentPrice = 50000 ∧
       p.leverage = simSettings.defaultLeverage ∧ p.pnl = 0) :=
  ⟨rfl, c4_simulation_no_network TradeCmd.LONG simSettings 50000 "r1" rfl⟩

/-! ## C10 -/

/-- C10: in simulation mode, executeTrade with action CLOSE fabricates a
position whose side is SHORT (not NONE, not an empty/closed position);
in general the fabricated side is LONG exactly when the action is LONG
and SHORT for both SHORT and CLOSE. -/
theorem c10_sim_close_fabricates_short (settings : AppSettings) (price : ℚ)
    (randId : String) (h : settings.isLiveMode = false) :
    (∃ p, executeTrade TradeCmd.CLOSE settings price randId =
        ExecuteOutcome.simulated p ∧ p.side = PositionSide.SHORT) ∧
    (∀ a : TradeCmd, ∃ p, executeTrade a settings price randId =
        ExecuteOutcome.simulated p ∧
      (p.side = PositionSide.LONG ↔ a = TradeCmd.LONG)) := by
  constructor
  · unfold executeTrade
    rw [h]
    simp only [if_pos rfl]
    exact ⟨_, rfl, rfl⟩
  · intro a
    unfold executeTrade
    rw [h]
    simp only [if_pos rfl]
    refine ⟨_, rfl, ?_⟩
    cases a <;> simp

/-- C10 witness: the theorem instantiated at a concrete CLOSE in the
simulation configuration. -/
theorem c10_witness :
    simSettings.isLiveMode = false ∧
    (∃ p, executeTrade TradeCmd.CLOSE simSettings 50000 "r2" =
        ExecuteOutcome.simulated p ∧ p.side = PositionSide.SHORT) :=
  ⟨rfl, (c10_sim_close_fabricates_short simSettings 50000 "r2" rfl).1⟩

/-! ## C6 -/

/-- Helper: a run of market-poller ticks keeps the history at 50 entries
or fewer whenever it starts that way. -/
theorem marketHistory_length_le (ticks : List (Option Sample))
    (h : List Sample) (hh : h.length ≤ 50) :
    (marketHistory h ticks).length ≤ 50 := by
  induction ticks generalizing h with
  | nil => exact hh
  | cons t ts ih =>
    cases t with
    | none => exact ih h hh
    | some s => exact ih (pushSample h s) (jsSliceLast_length_le 50 _)

/-- C6: after any number of market-poller ticks the rolling history has
length at most 50, and appending a fresh sample to a full history drops
exactly the oldest entry, preserving the order of the remaining samples. -/
theorem c6_history_bounded_oldest_evicted :
    (∀ ticks : List (Option Sample), (marketHistory [] ticks).length ≤ 50) ∧
    (∀ (h : List Sample) (s : Sample), h.length = 50 →
      pushSample h s = h.tail ++ [s]) := by
  constructor
  · intro ticks
    exact marketHistory_length_le ticks [] (by simp)
  · intro h s hl
    unfold pushSample jsSliceLast
    rw [List.length_append, hl]
    norm_num
    cases h with
    | nil => simp at hl
    | cons a t => simp

/-- C6 witness: the bound after two concrete ticks (one of them failed),
and the eviction equation on a concrete full history. -/
theorem c6_witness :
    (marketHistory [] [some ⟨"t1", 100⟩, none, some ⟨"t2", 101⟩]).length ≤ 50 ∧
    pushSample (List.replicate 50 ⟨"t0", 99⟩) ⟨"t3", 102⟩ =
      (List.replicate 50 (⟨"t0", 99⟩ : Sample)).tail ++ [⟨"t3", 102⟩] :=
  ⟨c6_history_bounded_oldest_evicted.1 _,
   c6_history_bounded_oldest_evicted.2 _ _ (by simp)⟩

/-! ## C9 -/

/-- C9: every position produced by getOpenPositions carries
pnlPercent = unrealizedPnl / margin * 100 exactly (the projection applies
the bare division with no guard on margin — see `mapOpenPosition`), the
claim being meaningful under the precondition margin > 0. -/
theorem c9_pnl_percent_formula
    (resp : Except String (Option (List RawPosition))) (rand : Nat → String)
    (ps : List Position) (hok : getOpenPositions resp rand = Except.ok ps) :
    ∀ q ∈ ps, 0 < q.margin → q.pnlPercent = q.pnl / q.margin * 100 := by
  intro q hq hm
  cases resp with
  | error e => cases hok
  | ok o =>
    cases o with
    | none =>
      obtain rfl : ([] : List Position) = ps := by injection hok
      cases hq
    | some l =>
      obtain rfl : l.enum.map (fun ip => mapOpenPosition (rand ip.1) ip.2) = ps := by
        injection hok
      simp only [List.mem_map] at hq
      obtain ⟨ip, _, rfl⟩ := hq
      rfl

/-- A concrete raw open position used by the C9 witness. -/
def rawPositionDemo : RawPosition :=
  { positionId := some "p1", symbol := "BTCUSDT", positionType := 1
    holdAvgPrice := 49000, fairPrice := 50000, leverage := 10
    unrealizedPnl := 5, margin := 50, liquidatePrice := 45000 }

/-- C9 witness: the formula instantiated on a concrete positions payload
with positive margin. -/
theorem c9_witness :
    getOpenPositions (Except.ok (some [rawPositionDemo])) (fun _ => "rid") =
      Except.ok [mapOpenPosition "rid" rawPositionDemo] ∧
    0 < (mapOpenPosition "rid" rawPositionDemo).margin ∧
    (mapOpenPosition "rid" rawPositionDemo).pnlPercent =
      (mapOpenPosition "rid" rawPositionDemo).pnl /
        (mapOpenPosition "rid" rawPositionDemo).margin * 100 :=
  ⟨rfl, by norm_num [mapOpenPosition, rawPositionDemo],
   c9_pnl_percent_formula (Except.ok (some [rawPositionDemo]))
     (fun _ => "rid") [mapOpenPosition "rid" rawPositionDemo] rfl
     (mapOpenPosition "rid" rawPositionDemo) (by simp)
     (by norm_num [mapOpenPosition, rawPositionDemo])⟩

/-! ## C5 -/

/-- C5: getTransferHistory absorbs every internal error (credential
absence and any Gateway throw alike) into the empty sequence — it cannot
throw, its codomain is a plain list — and an account sync in which the
five other sub-calls succeed while transfer history fails still publishes
a complete snapshot with transfers = [] and status CONNECTED. -/
theorem c5_transfer_failure_absorbed (settings : AppSettings)
    (spotL futL : List MexcBalance)
    (posResp : Except String (Option (List RawPosition)))
    (rand : Nat → String) (ps : List Position)
    (ordL : List MexcOrder) (trdL : List MexcTrade) (e : String)
    (hA : settings.mexcApiKey ≠ "") (hS : settings.mexcSecretKey ≠ "")
    (hp : getOpenPositions posResp rand = Except.ok ps) :
    (∀ (msg : String) (r : Nat → String),
      getTransferHistory (Except.error msg) r = []) ∧
    refreshAccountData settings true (Except.ok spotL) (Except.ok futL)
        posResp (Except.ok ordL) (Except.ok trdL) (Except.error e) rand =
      (SyncStatus.CONNECTED,
       some { spot := spotL, futures := futL, positions := ps
              orders := ordL, trades := trdL, transfers := [] }) := by
  refine ⟨fun _ _ => rfl, ?_⟩
  unfold refreshAccountData
  rw [if_neg (by simp [hA, hS])]
  rw [hp]
  rfl

/-- C5 witness: the sync outcome at a concrete input where only the
transfer sub-call throws. -/
theorem c5_witness :
    refreshAccountData liveSettings true (Except.ok []) (Except.ok [])
        (Except.ok none) (Except.ok []) (Except.ok [])
        (Except.error "deposit history unreachable") (fun _ => "rid") =
      (SyncStatus.CONNECTED,
       some { spot := [], futures := [], positions := []
              orders := [], trades := [], transfers := [] }) :=
  (c5_transfer_failure_absorbed liveSettings [] [] (Except.ok none)
    (fun _ => "rid") [] [] [] "deposit history unreachable"
    (by decide) (by decide) rfl).2

/-! ## C1 -/

/-- The order-creation request actually built in the spec's worked
example: volume 1, open-long code 1, market order, isolated margin, and
the configuration's defaultLeverage 10. -/
def orderParamsLev10 : OrderParams :=
  { symbol := "BTCUSDT", vol := 1, side := 1, type := 5
    openType := 1, leverage := 10 }

/-- C1 counterexample: in the spec's worked example — live mode, current
side NONE, provider decision LONG with requested leverage 5, configured
default leverage 10 — the single order-creation call carries
leverage = 10 (the configuration's default leverage), not the decision's
requested leverage 5: mexcService.ts line 210 reads
`settings.defaultLeverage` and the decision's leverage field is never
passed to executeTrade (App.tsx line 192). -/
theorem c1_counterexample :
    runTradingCycleOrderCalls liveSettings "" longBackends
        (some snapshot50000) [] "r" = [orderParamsLev10] ∧
    ¬ ∀ p ∈ runTradingCycleOrderCalls liveSettings "" longBackends
        (some snapshot50000) [] "r", p.leverage = 5 := by
  have hcalls : runTradingCycleOrderCalls liveSettings "" longBackends
      (some snapshot50000) [] "r" = [orderParamsLev10] := rfl
  refine ⟨hcalls, fun hall => ?_⟩
  have h5 := hall orderParamsLev10 (hcalls ▸ List.mem_singleton.mpr rfl)
  have h10 : (10 : ℚ) = 5 := h5
  norm_num at h10

/-- Helper: in live mode with both credentials present, executeTrade
submits exactly the order built by `mkOrderParams`. -/
theorem executeTrade_live (action : TradeCmd) (settings : AppSettings)
    (price : ℚ) (randId : String) (hlive : settings.isLiveMode = true)
    (hA : settings.mexcApiKey ≠ "") (hS : settings.mexcSecretKey ≠ "") :
    executeTrade action settings price randId =
      ExecuteOutcome.submitted (mkOrderParams action settings) := by
  unfold executeTrade
  rw [hlive]
  rw [if_neg (by simp), if_neg (by simp [hA, hS])]

/-- C1 (amended): in live mode, when the Decision Provider returns action
LONG and the current side is NONE (no open positions), exactly one
order-creation call is made through the Gateway, with side mapped to the
exchange's open-long code (side = 1) and with leverage equal to the
configuration's default leverage — the decision's requested leverage is
not forwarded. -/
theorem c1_live_long_single_order (settings : AppSettings) (envKey : String)
    (b : Backends) (m : MarketData) (randId : String)
    (hauto : settings.isAutoTrading = true)
    (hlive : settings.isLiveMode = true)
    (hA : settings.mexcApiKey ≠ "") (hS : settings.mexcSecretKey ≠ "")
    (hdec : (analyze settings envKey b m
        (sideName (activeSide []))).action = TradeActionKind.LONG) :
    runTradingCycleOrderCalls settings envKey b (some m) [] randId =
      [mkOrderParams TradeCmd.LONG settings] ∧
    (mkOrderParams TradeCmd.LONG settings).side = 1 ∧
    (mkOrderParams TradeCmd.LONG settings).leverage =
      settings.defaultLeverage := by
  refine ⟨?_, rfl, rfl⟩
  simp only [runTradingCycleOrderCalls]
  rw [hauto, hdec]
  simp only [Bool.true_eq_false, if_false, actionCmd]
  rw [hlive]
  simp only [if_true]
  rw [executeTrade_live TradeCmd.LONG settings m.price randId hlive hA hS]
  rfl

/-- C1 witness: the amended statement instantiated at the spec's worked
example. -/
theorem c1_witness :
    runTradingCycleOrderCalls liveSettings "" longBackends
        (some snapshot50000) [] "r3" =
      [mkOrderParams TradeCmd.LONG liveSettings] ∧
    (mkOrderParams TradeCmd.LONG liveSettings).side = 1 ∧
    (mkOrderParams TradeCmd.LONG liveSettings).leverage =
      liveSettings.defaultLeverage :=
  c1_live_long_single_order liveSettings "" longBackends snapshot50000 "r3"
    rfl rfl (by decide) (by decide) rfl

/-! ## C2 -/

/-- C2 counterexample: a realizable trace of the timer-driven trading
loop with two overlapping EXECUTING phases.  With the configured interval
at one minute (T = 60000 ms), auto-trading on and a snapshot present
(`cycleEntryGuard` passes and, checking nothing else, lets every tick
start a cycle), a live order submission taking 120000 ms makes cycle 0
execute over [1000, 121000) while cycle 1 executes from 61000 — at
t = 61000 both distinct cycles are in their EXECUTING phase, refuting
"no two EXECUTING phases overlap in time". -/
theorem c2_counterexample :
    cycleEntryGuard true true = true ∧
    (0 : Nat) ≠ 1 ∧
    executingAt 60000 (fun _ => ⟨1000, 120000⟩) 0 61000 = true ∧
    executingAt 60000 (fun _ => ⟨1000, 120000⟩) 1 61000 = true := by
  refine ⟨rfl, by decide, ?_, ?_⟩ <;> decide

/-- C2 (amended): no two EXECUTING phases of the timer-driven trading
loop overlap in time provided every cycle resolves within the configured
interval (analysis duration + execution duration ≤ T); without that
bound the guarantee fails, because setInterval fires regardless of the
previous invocation and runTradingCycle's entry guard performs no
re-entrancy check. -/
theorem c2_no_overlap_when_cycles_fit (T : Nat) (d : Nat → CycleDurations)
    (hfit : ∀ n, (d n).analyzeDur + (d n).execDur ≤ T) :
    ∀ m n t, m < n →
      ¬(executingAt T d m t = true ∧ executingAt T d n t = true) := by
  intro m n t hmn hboth
  obtain ⟨hm, hn⟩ := hboth
  simp only [executingAt, execPhaseEnd, execPhaseStart, cycleStart,
    Bool.and_eq_true, decide_eq_true_eq] at hm hn
  obtain ⟨hm1, hm2⟩ := hm
  obtain ⟨hn1, hn2⟩ := hn
  have hfm := hfit m
  have hstep : (m + 1) * T ≤ n * T :=
    Nat.mul_le_mul_right T (Nat.succ_le_of_lt hmn)
  rw [Nat.succ_mul] at hstep
  omega

/-- A duration assignment under which every cycle resolves within the
one-minute interval. -/
def fittingDurations : Nat → CycleDurations := fun _ => ⟨1000, 50000⟩

/-- C2 witness: the amended statement instantiated with a one-minute
interval and cycles resolving in 51 seconds. -/
theorem c2_witness :
    ¬(executingAt 60000 fittingDurations 0 30500 = true ∧
      executingAt 60000 fittingDurations 1 30500 = true) :=
  c2_no_overlap_when_cycles_fit 60000 fittingDurations
    (fun _ => by norm_num [fittingDurations]) 0 1 30500 (by norm_num)

end Cmed
